import Mathlib

/-!
Verification of the solsspace land program: a shallow embedding of
`src/land/program/src/state.rs` and `src/land/program/src/processor.rs`.

Machine integers (`u64`) are modelled as `Nat`; the allocator's guards
ensure no `u64` arithmetic in the source can overflow on any state whose
fields fit in 64 bits, so the `Nat` translation agrees with the Rust
semantics on the whole `u64` domain.  Account data is a list of bytes
(`List Nat`).  External facilities of the ledger runtime (`solana_program`:
rent-threshold computation and program-derived-address derivation) are
passed in as explicit function parameters, exactly as the program consumes
them at its interface.
-/

/-- `u64::MAX` of the Rust source. -/
def U64_MAX : Nat := 2 ^ 64 - 1

/-- Version tag of a land plane record (`LandPlaneVersion` in state.rs). -/
inductive LandPlaneVersion
  | Uninitialised
  | V1
deriving DecidableEq

/-- The land plane record (`LandPlane` in state.rs): allocation cursor. -/
structure LandPlane where
  version : LandPlaneVersion
  next_x : Nat
  next_z : Nat
  depth : Nat
deriving DecidableEq

/-- Version tag of a land asset record (`LandAssetVersion` in state.rs). -/
inductive LandAssetVersion
  | Uninitialised
  | V1
deriving DecidableEq

/-- The land asset record (`LandAsset` in state.rs). -/
structure LandAsset where
  version : LandAssetVersion
  mint_pubkey : List Nat
deriving DecidableEq

/-- Program errors of the land program (`LandError` in error.rs). -/
inductive LandError
  | AlreadyInUse
  | SignatureError
  | LandPlaneAccUninitialised
  | NotRentExempt
  | IncorrectDataSize
  | LandComplete
  | InvalidLandAssetAccKey
  | LandAssetAccUninitialised
deriving DecidableEq

/-- `ProgramError` as the processor surfaces it: a custom land error, the
runtime's missing-account error from `next_account_info`, or a borsh
deserialization failure. -/
inductive ProgError
  | custom (e : LandError)
  | notEnoughAccountKeys
  | borshIoError
deriving DecidableEq

/-- `LAND_PLANE_ACC_DATA_LEN` in state.rs: 1 + 8 + 8 + 8. -/
def LAND_PLANE_ACC_DATA_LEN : Nat := 1 + 8 + 8 + 8

/-- `LAND_ASSET_ACC_DATA_LEN` in state.rs: 1 + 32. -/
def LAND_ASSET_ACC_DATA_LEN : Nat := 1 + 32

/-- The bytes of the seed namespace string "solsspace-land"
(`LAND_ASSET_ACC_PREFIX` in state.rs, as UTF-8 bytes). -/
def LAND_ASSET_ACC_PREFIX_BYTES : List Nat :=
  [115, 111, 108, 115, 115, 112, 97, 99, 101, 45, 108, 97, 110, 100]

/-- `u64::to_le_bytes`: the 8 little-endian bytes of `n`. -/
def toLEBytes (n : Nat) : List Nat :=
  (List.range 8).map fun i => n / 256 ^ i % 256

/-- Little-endian byte-list to number (borsh `u64` read). -/
def fromLEBytes (bs : List Nat) : Nat :=
  bs.foldr (fun b acc => b + 256 * acc) 0

/-- `LandPlane::increment_mint` in state.rs, as a pure transition: on
success the new state, on failure (`LandComplete`) the state is untouched
(the Rust function returns before mutating in that branch). -/
def LandPlane.increment_mint (s : LandPlane) : Except LandError LandPlane :=
  if s.next_z < s.depth then
    .ok ⟨s.version, s.next_x, s.next_z + 1, s.depth⟩
  else if s.next_x > 0 then
    .ok ⟨s.version, s.next_x - 1, s.next_z, s.depth⟩
  else if s.depth = U64_MAX then
    .error .LandComplete
  else
    .ok ⟨s.version, s.depth + 1, 0, s.depth + 1⟩

/-- Borsh deserialization of a `LandPlane` record
(`try_from_slice_unchecked::<LandPlane>`): 1-byte version tag, then three
little-endian `u64` fields. -/
def deserializeLandPlane (data : List Nat) : Except ProgError LandPlane :=
  match data with
  | tag :: rest =>
    if rest.length < 24 then .error .borshIoError
    else if tag = 0 then
      .ok ⟨.Uninitialised, fromLEBytes (rest.take 8),
           fromLEBytes ((rest.drop 8).take 8),
           fromLEBytes ((rest.drop 16).take 8)⟩
    else if tag = 1 then
      .ok ⟨.V1, fromLEBytes (rest.take 8),
           fromLEBytes ((rest.drop 8).take 8),
           fromLEBytes ((rest.drop 16).take 8)⟩
    else .error .borshIoError
  | [] => .error .borshIoError

/-- Borsh serialization of a `LandPlane` record (`BorshSerialize`):
1-byte version tag followed by the three fields, little-endian. -/
def serializeLandPlane (s : LandPlane) : List Nat :=
  (match s.version with
   | .Uninitialised => 0
   | .V1 => 1) ::
  (toLEBytes s.next_x ++ toLEBytes s.next_z ++ toLEBytes s.depth)

/-- Borsh deserialization of a `LandAsset` record
(`try_from_slice_unchecked::<LandAsset>`): 1-byte version tag, then a
32-byte pubkey. -/
def deserializeLandAsset (data : List Nat) : Except ProgError LandAsset :=
  match data with
  | tag :: rest =>
    if rest.length < 32 then .error .borshIoError
    else if tag = 0 then .ok ⟨.Uninitialised, rest.take 32⟩
    else if tag = 1 then .ok ⟨.V1, rest.take 32⟩
    else .error .borshIoError
  | [] => .error .borshIoError

/-- An account as the processor sees it: address, signer bit, balance,
and the raw record bytes. A `Pubkey` is its 32-byte value. -/
structure AccountInfo where
  key : List Nat
  is_signer : Bool
  lamports : Nat
  data : List Nat
deriving DecidableEq

/-- `LandPlane::from_account_info` in state.rs: exact-length check first,
then borsh parse. -/
def LandPlane.from_account_info (a : AccountInfo) : Except ProgError LandPlane :=
  if a.data.length ≠ LAND_PLANE_ACC_DATA_LEN then
    .error (.custom .IncorrectDataSize)
  else
    deserializeLandPlane a.data

/-- `LandAsset::from_account_info` in state.rs: exact-length check first,
then borsh parse. -/
def LandAsset.from_account_info (a : AccountInfo) : Except ProgError LandAsset :=
  if a.data.length ≠ LAND_ASSET_ACC_DATA_LEN then
    .error (.custom .IncorrectDataSize)
  else
    deserializeLandAsset a.data

/-- The ledger's rent interface (`solana_program::sysvar::rent::Rent`),
external to this program: all the processor consumes is the minimum
balance required for a record of a given byte size. -/
structure Rent where
  minimumBalance : Nat → Nat

/-- `Rent::is_exempt(balance, data_len)` of the ledger runtime. -/
def Rent.is_exempt (r : Rent) (balance : Nat) (dataLen : Nat) : Bool :=
  r.minimumBalance dataLen ≤ balance

/-- `process_initialise_land_plane` in processor.rs. Takes the parsed
rent sysvar as a parameter (its decoding is runtime code external to the
program). Returns the instruction result together with the account list
after execution: the only write is the serialize of the initialised state
into the plane account's data, on the all-checks-passed path. -/
def process_initialise_land_plane (rent : Rent) (accounts : List AccountInfo) :
    Except ProgError Unit × List AccountInfo :=
  match accounts with
  | land_plane :: rentAcc :: tail =>
    match LandPlane.from_account_info land_plane with
    | .error e => (.error e, accounts)
    | .ok st =>
      if st.version ≠ .Uninitialised then
        (.error (.custom .AlreadyInUse), accounts)
      else if !(rent.is_exempt land_plane.lamports LAND_PLANE_ACC_DATA_LEN) then
        (.error (.custom .NotRentExempt), accounts)
      else
        (.ok (),
         ⟨land_plane.key, land_plane.is_signer, land_plane.lamports,
          serializeLandPlane ⟨.V1, 0, 0, 0⟩⟩ :: rentAcc :: tail)
  | _ => (.error .notEnoughAccountKeys, accounts)

/-- `process_initialise_land_asset` in processor.rs: the body is `Ok(())`
— no account is read, checked, or written. -/
def process_initialise_land_asset (accounts : List AccountInfo) :
    Except ProgError Unit × List AccountInfo :=
  (.ok (), accounts)

/-- `process_mint_next` in processor.rs. `fpa` is the ledger's
`Pubkey::find_program_address` (external key-derivation facility),
applied to the seed list and program id exactly as the source builds
them. Returns the result together with the accounts after execution
(the function performs no writes). -/
def process_mint_next
    (fpa : List (List Nat) → List Nat → List Nat)
    (program_id : List Nat)
    (accounts : List AccountInfo) :
    Except ProgError Unit × List AccountInfo :=
  match accounts with
  | owner :: land_asset :: land_plane :: _tokAcc :: _mintAcc :: _ =>
    if !owner.is_signer then
      (.error (.custom .SignatureError), accounts)
    else
      match LandPlane.from_account_info land_plane with
      | .error e => (.error e, accounts)
      | .ok planeState =>
        if planeState.version = .Uninitialised then
          (.error (.custom .LandPlaneAccUninitialised), accounts)
        else
          if land_asset.key ≠
              fpa [LAND_ASSET_ACC_PREFIX_BYTES, land_plane.key,
                   toLEBytes planeState.next_x, toLEBytes planeState.next_z]
                program_id then
            (.error (.custom .InvalidLandAssetAccKey), accounts)
          else
            match LandAsset.from_account_info land_asset with
            | .error e => (.error e, accounts)
            | .ok assetState =>
              if assetState.version = .Uninitialised then
                (.error (.custom .LandAssetAccUninitialised), accounts)
              else
                (.ok (), accounts)
  | _ => (.error .notEnoughAccountKeys, accounts)

/-- Iterated allocator from a state: `Except`-propagating n-fold
`increment_mint`. -/
def advanceN : Nat → LandPlane → Except LandError LandPlane
  | 0, s => .ok s
  | n + 1, s =>
    match s.increment_mint with
    | .ok s1 => advanceN n s1
    | .error e => .error e

/-- The coordinate `(next_x, next_z)` read off the plane immediately
before the (k+1)-st allocator call, starting from the initial state. -/
def coordAt (k : Nat) : Option (Nat × Nat) :=
  match advanceN k ⟨.V1, 0, 0, 0⟩ with
  | .ok s => some (s.next_x, s.next_z)
  | .error _ => none

/-- The caller-level state after one allocator call: the new state on
success, the untouched state on failure (the Rust method returns before
mutating `self` on its error path). -/
def afterCall (s : LandPlane) : LandPlane :=
  match s.increment_mint with
  | .ok s1 => s1
  | .error _ => s

/-- Plane states reachable from the initial state written by
`process_initialise_land_plane` through successful allocator calls. -/
inductive Reachable : LandPlane → Prop
  | init : Reachable ⟨.V1, 0, 0, 0⟩
  | step (s s1 : LandPlane) : Reachable s → s.increment_mint = .ok s1 → Reachable s1

/-! ## Helper lemmas -/

/-- The allocator's only error is space exhaustion. -/
theorem increment_mint_error_is_landComplete (s : LandPlane) (e : LandError)
    (h : s.increment_mint = .error e) : e = .LandComplete := by
  unfold LandPlane.increment_mint at h
  by_cases h1 : s.next_z < s.depth
  · rw [if_pos h1] at h; cases h
  · rw [if_neg h1] at h
    by_cases h2 : s.next_x > 0
    · rw [if_pos h2] at h; cases h
    · rw [if_neg h2] at h
      by_cases h3 : s.depth = U64_MAX
      · rw [if_pos h3] at h; cases h; rfl
      · rw [if_neg h3] at h; cases h

/-- `process_mint_next` never writes: the account list after execution is
the input account list, on every path. -/
theorem mintNext_accounts_unchanged
    (fpa : List (List Nat) → List Nat → List Nat) (pid : List Nat)
    (accounts : List AccountInfo) :
    (process_mint_next fpa pid accounts).2 = accounts := by
  unfold process_mint_next
  repeat' split
  all_goals rfl

/-- The freshly initialised plane record round-trips through the borsh
encoding. -/
theorem init_state_roundtrip :
    deserializeLandPlane (serializeLandPlane ⟨.V1, 0, 0, 0⟩) = .ok ⟨.V1, 0, 0, 0⟩ := by
  rfl

/-! ## Claim theorems -/

/-- C1 counterexample: the claim lists the coordinate taken before the
second allocator call as (0,1); the code in fact moves the cursor to
(1,0) after the first call (it starts each ring at `(depth, 0)` and walks
`next_z` up before walking `next_x` down). -/
theorem C1_counterexample : coordAt 1 = some (1, 0) ∧ coordAt 1 ≠ some (0, 1) := by
  decide

/-- C1 (amended): from the initial state, the coordinates taken before
each of the first nine successful allocator calls are
(0,0),(1,0),(1,1),(0,1) at depth 1, then (2,0),(2,1),(2,2),(1,2),(0,2) at
depth 2; these coordinates are pairwise distinct (one new coordinate per
call), and the only failure mode of the allocator is `LandComplete`
(space exhaustion). -/
theorem C1_advance_sequence :
    (List.range 9).map coordAt =
      [some (0, 0), some (1, 0), some (1, 1), some (0, 1), some (2, 0),
       some (2, 1), some (2, 2), some (1, 2), some (0, 2)] ∧
    ([(0, 0), (1, 0), (1, 1), (0, 1), (2, 0), (2, 1), (2, 2), (1, 2), (0, 2)] :
        List (Nat × Nat)).Nodup ∧
    (∀ s e, LandPlane.increment_mint s = .error e → e = .LandComplete) :=
  ⟨by decide, by decide, increment_mint_error_is_landComplete⟩

/-- C1 witness: the failure-mode clause applied at the exhausted corner
state, where the allocator really does fail. -/
theorem C1_witness : (LandError.LandComplete = LandError.LandComplete) :=
  C1_advance_sequence.2.2 ⟨.V1, 0, U64_MAX, U64_MAX⟩ .LandComplete rfl

/-- C3 counterexample: the state (V1, next_x=1, next_z=1, depth=1) is
reachable, satisfies BOTH boundary conditions `next_x = depth` and
`next_z = depth`, yet is not the depth-growth transition point: the next
call leaves `depth` at 1. So "exactly one condition holds except at the
single transition point where depth grows" fails there. -/
theorem C3_counterexample :
    Reachable ⟨.V1, 1, 1, 1⟩ ∧
    (⟨.V1, 1, 1, 1⟩ : LandPlane).next_x = (⟨.V1, 1, 1, 1⟩ : LandPlane).depth ∧
    (⟨.V1, 1, 1, 1⟩ : LandPlane).next_z = (⟨.V1, 1, 1, 1⟩ : LandPlane).depth ∧
    LandPlane.increment_mint ⟨.V1, 1, 1, 1⟩ = .ok ⟨.V1, 0, 1, 1⟩ := by
  refine ⟨?_, rfl, rfl, rfl⟩
  exact Reachable.step _ _ (Reachable.step _ _ Reachable.init rfl) rfl

/-- C3 (amended): every plane state reachable from the initial state by
successful allocator calls has version V1, satisfies `next_x ≤ depth` and
`next_z ≤ depth`, and at least one of `next_x = depth`, `next_z = depth`
holds (both hold at the initial state and at ring corners
`next_x = next_z = depth`). -/
theorem C3_reachable_invariant (s : LandPlane) (h : Reachable s) :
    s.version = .V1 ∧ s.next_x ≤ s.depth ∧ s.next_z ≤ s.depth ∧
      (s.next_x = s.depth ∨ s.next_z = s.depth) := by
  induction h with
  | init => exact ⟨rfl, Nat.le_refl 0, Nat.le_refl 0, Or.inl rfl⟩
  | step t t1 ht hstep ih =>
    obtain ⟨hv, hx, hz, hb⟩ := ih
    unfold LandPlane.increment_mint at hstep
    by_cases h1 : t.next_z < t.depth
    · rw [if_pos h1] at hstep
      cases hstep
      refine ⟨hv, hx, h1, ?_⟩
      show t.next_x = t.depth ∨ t.next_z + 1 = t.depth
      omega
    · rw [if_neg h1] at hstep
      by_cases h2 : t.next_x > 0
      · rw [if_pos h2] at hstep
        cases hstep
        refine ⟨hv, ?_, hz, ?_⟩
        · show t.next_x - 1 ≤ t.depth
          omega
        · show t.next_x - 1 = t.depth ∨ t.next_z = t.depth
          omega
      · rw [if_neg h2] at hstep
        by_cases h3 : t.depth = U64_MAX
        · rw [if_pos h3] at hstep
          cases hstep
        · rw [if_neg h3] at hstep
          cases hstep
          exact ⟨hv, Nat.le_refl _, Nat.zero_le _, Or.inl rfl⟩

/-- C3 witness: the invariant applied at the initial state. -/
theorem C3_witness :
    (⟨.V1, 0, 0, 0⟩ : LandPlane).version = .V1 ∧
    (⟨.V1, 0, 0, 0⟩ : LandPlane).next_x ≤ (⟨.V1, 0, 0, 0⟩ : LandPlane).depth ∧
    (⟨.V1, 0, 0, 0⟩ : LandPlane).next_z ≤ (⟨.V1, 0, 0, 0⟩ : LandPlane).depth ∧
    ((⟨.V1, 0, 0, 0⟩ : LandPlane).next_x = (⟨.V1, 0, 0, 0⟩ : LandPlane).depth ∨
     (⟨.V1, 0, 0, 0⟩ : LandPlane).next_z = (⟨.V1, 0, 0, 0⟩ : LandPlane).depth) :=
  C3_reachable_invariant ⟨.V1, 0, 0, 0⟩ Reachable.init

/-- C4: at the exhausted corner (next_x = 0, next_z = depth = u64::MAX)
the allocator fails with `LandComplete`; the failure path leaves the
state untouched, so every later call (iterating the caller-level step
that keeps the old state on failure) fails identically. -/
theorem C4_exhaustion_terminal (s : LandPlane) (_hv : s.version = .V1)
    (hx : s.next_x = 0) (hz : s.next_z = s.depth) (hd : s.depth = U64_MAX) :
    ∀ n : Nat, (afterCall^[n] s).increment_mint = .error .LandComplete := by
  have hone : s.increment_mint = .error .LandComplete := by
    unfold LandPlane.increment_mint
    rw [if_neg (by omega), if_neg (by omega), if_pos hd]
  have hfix : afterCall s = s := by unfold afterCall; rw [hone]
  intro n
  induction n with
  | zero => simpa using hone
  | succ n ih =>
    rw [Function.iterate_succ_apply, hfix]
    exact ih

/-- C4 witness: the terminal-exhaustion theorem at the concrete corner
state with depth = u64::MAX, one call deep. -/
theorem C4_witness :
    (afterCall^[1] ⟨.V1, 0, U64_MAX, U64_MAX⟩).increment_mint =
      .error .LandComplete :=
  C4_exhaustion_terminal ⟨.V1, 0, U64_MAX, U64_MAX⟩ rfl rfl rfl rfl 1

/-- C8: any account whose data length is not exactly 25 bytes is rejected
by the plane decoder with `IncorrectDataSize`, and any account whose data
length is not exactly 33 bytes is rejected by the asset decoder with
`IncorrectDataSize`; the length check precedes any parsing. -/
theorem C8_decode_size_guard (a b : AccountInfo) :
    (a.data.length ≠ LAND_PLANE_ACC_DATA_LEN →
      LandPlane.from_account_info a = .error (.custom .IncorrectDataSize)) ∧
    (b.data.length ≠ LAND_ASSET_ACC_DATA_LEN →
      LandAsset.from_account_info b = .error (.custom .IncorrectDataSize)) := by
  constructor
  · intro h
    unfold LandPlane.from_account_info
    rw [if_pos h]
  · intro h
    unfold LandAsset.from_account_info
    rw [if_pos h]

/-- C8 witness: both size guards fire on an empty-data account. -/
theorem C8_witness :
    LandPlane.from_account_info ⟨[], false, 0, []⟩ =
      .error (.custom .IncorrectDataSize) ∧
    LandAsset.from_account_info ⟨[], false, 0, []⟩ =
      .error (.custom .IncorrectDataSize) :=
  ⟨(C8_decode_size_guard ⟨[], false, 0, []⟩ ⟨[], false, 0, []⟩).1 (by decide),
   (C8_decode_size_guard ⟨[], false, 0, []⟩ ⟨[], false, 0, []⟩).2 (by decide)⟩

/-- C10: `InitialiseLandAsset` returns success unconditionally, on any
account list, performing no check and writing no account data. -/
theorem C10_initialise_asset_noop (accounts : List AccountInfo) :
    process_initialise_land_asset accounts = (.ok (), accounts) :=
  rfl

/-- Path lemma: a missing signer bit fails first, with `SignatureError`. -/
theorem mintNext_no_signer
    (fpa : List (List Nat) → List Nat → List Nat) (pid : List Nat)
    (owner asset plane tokAcc mintAcc : AccountInfo) (rest : List AccountInfo)
    (hsig : owner.is_signer = false) :
    process_mint_next fpa pid (owner :: asset :: plane :: tokAcc :: mintAcc :: rest) =
      (.error (.custom .SignatureError),
       owner :: asset :: plane :: tokAcc :: mintAcc :: rest) := by
  simp only [process_mint_next, hsig]
  rfl

/-- Path lemma: with a signer, an uninitialised plane record fails with
`LandPlaneAccUninitialised`. -/
theorem mintNext_plane_uninitialised
    (fpa : List (List Nat) → List Nat → List Nat) (pid : List Nat)
    (owner asset plane tokAcc mintAcc : AccountInfo) (rest : List AccountInfo)
    (st : LandPlane)
    (hsig : owner.is_signer = true)
    (hdec : LandPlane.from_account_info plane = .ok st)
    (hv : st.version = .Uninitialised) :
    process_mint_next fpa pid (owner :: asset :: plane :: tokAcc :: mintAcc :: rest) =
      (.error (.custom .LandPlaneAccUninitialised),
       owner :: asset :: plane :: tokAcc :: mintAcc :: rest) := by
  simp only [process_mint_next, hsig]
  rw [hdec]
  simp [hv]

/-- Path lemma: with a signer and an initialised plane, a plot account
whose key differs from the derived next-plot key fails with
`InvalidLandAssetAccKey`. -/
theorem mintNext_wrong_key
    (fpa : List (List Nat) → List Nat → List Nat) (pid : List Nat)
    (owner asset plane tokAcc mintAcc : AccountInfo) (rest : List AccountInfo)
    (st : LandPlane)
    (hsig : owner.is_signer = true)
    (hdec : LandPlane.from_account_info plane = .ok st)
    (hv : st.version ≠ .Uninitialised)
    (hk : asset.key ≠ fpa [LAND_ASSET_ACC_PREFIX_BYTES, plane.key,
            toLEBytes st.next_x, toLEBytes st.next_z] pid) :
    process_mint_next fpa pid (owner :: asset :: plane :: tokAcc :: mintAcc :: rest) =
      (.error (.custom .InvalidLandAssetAccKey),
       owner :: asset :: plane :: tokAcc :: mintAcc :: rest) := by
  simp only [process_mint_next, hsig]
  rw [hdec]
  simp [hv, hk]

/-- Path lemma: with a signer, an initialised plane and the correctly
derived plot key, an uninitialised plot record fails with
`LandAssetAccUninitialised`. -/
theorem mintNext_asset_uninitialised
    (fpa : List (List Nat) → List Nat → List Nat) (pid : List Nat)
    (owner asset plane tokAcc mintAcc : AccountInfo) (rest : List AccountInfo)
    (st : LandPlane) (ast : LandAsset)
    (hsig : owner.is_signer = true)
    (hdec : LandPlane.from_account_info plane = .ok st)
    (hv : st.version ≠ .Uninitialised)
    (hk : asset.key = fpa [LAND_ASSET_ACC_PREFIX_BYTES, plane.key,
            toLEBytes st.next_x, toLEBytes st.next_z] pid)
    (hadec : LandAsset.from_account_info asset = .ok ast)
    (hav : ast.version = .Uninitialised) :
    process_mint_next fpa pid (owner :: asset :: plane :: tokAcc :: mintAcc :: rest) =
      (.error (.custom .LandAssetAccUninitialised),
       owner :: asset :: plane :: tokAcc :: mintAcc :: rest) := by
  simp only [process_mint_next, hsig]
  rw [hdec]
  simp [hv, hk, hadec, hav]

/-- C2: with a signing owner and a decoded V1 plane state, `MintNext`
accepts exactly one plot address — the one derived by the external
key-derivation facility from the seed tuple ("solsspace-land" bytes,
plane account key, next_x as 8 little-endian bytes, next_z as 8
little-endian bytes) and the program id: any different supplied plot
address fails with `InvalidLandAssetAccKey`, and any outcome other than
that failure means the supplied address equals the derived one. -/
theorem C2_address_binding
    (fpa : List (List Nat) → List Nat → List Nat) (pid : List Nat)
    (owner asset plane tokAcc mintAcc : AccountInfo) (rest : List AccountInfo)
    (st : LandPlane)
    (hsig : owner.is_signer = true)
    (hdec : LandPlane.from_account_info plane = .ok st)
    (hv : st.version = .V1) :
    (asset.key ≠ fpa [LAND_ASSET_ACC_PREFIX_BYTES, plane.key,
        toLEBytes st.next_x, toLEBytes st.next_z] pid →
      (process_mint_next fpa pid
          (owner :: asset :: plane :: tokAcc :: mintAcc :: rest)).1 =
        .error (.custom .InvalidLandAssetAccKey)) ∧
    ((process_mint_next fpa pid
          (owner :: asset :: plane :: tokAcc :: mintAcc :: rest)).1 ≠
        .error (.custom .InvalidLandAssetAccKey) →
      asset.key = fpa [LAND_ASSET_ACC_PREFIX_BYTES, plane.key,
        toLEBytes st.next_x, toLEBytes st.next_z] pid) := by
  have hv2 : st.version ≠ .Uninitialised := by simp [hv]
  constructor
  · intro hk
    rw [mintNext_wrong_key fpa pid owner asset plane tokAcc mintAcc rest st
      hsig hdec hv2 hk]
  · intro hres
    by_contra hk
    exact hres (by
      rw [mintNext_wrong_key fpa pid owner asset plane tokAcc mintAcc rest st
        hsig hdec hv2 hk])

/-- C2 witness: a concrete V1 plane and a plot account whose key differs
from the derived key is rejected with `InvalidLandAssetAccKey`. -/
theorem C2_witness :
    (process_mint_next (fun _ _ => [9, 9]) [0]
        [⟨[1], true, 0, []⟩, ⟨[7], false, 0, []⟩,
         ⟨[2], false, 0, 1 :: List.replicate 24 0⟩,
         ⟨[3], false, 0, []⟩, ⟨[4], false, 0, []⟩]).1 =
      .error (.custom .InvalidLandAssetAccKey) :=
  (C2_address_binding (fun _ _ => [9, 9]) [0]
      ⟨[1], true, 0, []⟩ ⟨[7], false, 0, []⟩
      ⟨[2], false, 0, 1 :: List.replicate 24 0⟩
      ⟨[3], false, 0, []⟩ ⟨[4], false, 0, []⟩ []
      ⟨.V1, 0, 0, 0⟩ rfl rfl rfl).1 (by decide)

/-- C5: the `MintNext` validation checks run in order and short-circuit
with distinct errors — missing signer bit: `SignatureError`; then an
uninitialised plane record: `LandPlaneAccUninitialised`; then a plot key
different from the derived next-plot key: `InvalidLandAssetAccKey`; then
an uninitialised plot record: `LandAssetAccUninitialised` — and the
account list after execution always equals the input (no failure
mutates state). -/
theorem C5_check_order
    (fpa : List (List Nat) → List Nat → List Nat) (pid : List Nat)
    (owner asset plane tokAcc mintAcc : AccountInfo) (rest : List AccountInfo) :
    (owner.is_signer = false →
      (process_mint_next fpa pid
          (owner :: asset :: plane :: tokAcc :: mintAcc :: rest)).1 =
        .error (.custom .SignatureError)) ∧
    (∀ st : LandPlane, owner.is_signer = true →
      LandPlane.from_account_info plane = .ok st →
      st.version = .Uninitialised →
      (process_mint_next fpa pid
          (owner :: asset :: plane :: tokAcc :: mintAcc :: rest)).1 =
        .error (.custom .LandPlaneAccUninitialised)) ∧
    (∀ st : LandPlane, owner.is_signer = true →
      LandPlane.from_account_info plane = .ok st →
      st.version ≠ .Uninitialised →
      asset.key ≠ fpa [LAND_ASSET_ACC_PREFIX_BYTES, plane.key,
        toLEBytes st.next_x, toLEBytes st.next_z] pid →
      (process_mint_next fpa pid
          (owner :: asset :: plane :: tokAcc :: mintAcc :: rest)).1 =
        .error (.custom .InvalidLandAssetAccKey)) ∧
    (∀ (st : LandPlane) (ast : LandAsset), owner.is_signer = true →
      LandPlane.from_account_info plane = .ok st →
      st.version ≠ .Uninitialised →
      asset.key = fpa [LAND_ASSET_ACC_PREFIX_BYTES, plane.key,
        toLEBytes st.next_x, toLEBytes st.next_z] pid →
      LandAsset.from_account_info asset = .ok ast →
      ast.version = .Uninitialised →
      (process_mint_next fpa pid
          (owner :: asset :: plane :: tokAcc :: mintAcc :: rest)).1 =
        .error (.custom .LandAssetAccUninitialised)) ∧
    (process_mint_next fpa pid
        (owner :: asset :: plane :: tokAcc :: mintAcc :: rest)).2 =
      owner :: asset :: plane :: tokAcc :: mintAcc :: rest := by
  refine ⟨?_, ?_, ?_, ?_, mintNext_accounts_unchanged fpa pid _⟩
  · intro hsig
    rw [mintNext_no_signer fpa pid owner asset plane tokAcc mintAcc rest hsig]
  · intro st hsig hdec hv
    rw [mintNext_plane_uninitialised fpa pid owner asset plane tokAcc mintAcc
      rest st hsig hdec hv]
  · intro st hsig hdec hv hk
    rw [mintNext_wrong_key fpa pid owner asset plane tokAcc mintAcc rest st
      hsig hdec hv hk]
  · intro st ast hsig hdec hv hk hadec hav
    rw [mintNext_asset_uninitialised fpa pid owner asset plane tokAcc mintAcc
      rest st ast hsig hdec hv hk hadec hav]

/-- C5 witness: the four failures observed at concrete inputs, plus the
unchanged-accounts frame at the last of them. -/
theorem C5_witness :
    (process_mint_next (fun _ _ => [9, 9]) [0]
        [⟨[1], false, 0, []⟩, ⟨[7], false, 0, []⟩,
         ⟨[2], false, 0, 1 :: List.replicate 24 0⟩,
         ⟨[3], false, 0, []⟩, ⟨[4], false, 0, []⟩]).1 =
      .error (.custom .SignatureError) ∧
    (process_mint_next (fun _ _ => [9, 9]) [0]
        [⟨[1], true, 0, []⟩, ⟨[7], false, 0, []⟩,
         ⟨[2], false, 0, List.replicate 25 0⟩,
         ⟨[3], false, 0, []⟩, ⟨[4], false, 0, []⟩]).1 =
      .error (.custom .LandPlaneAccUninitialised) ∧
    (process_mint_next (fun _ _ => [9, 9]) [0]
        [⟨[1], true, 0, []⟩, ⟨[7], false, 0, []⟩,
         ⟨[2], false, 0, 1 :: List.replicate 24 0⟩,
         ⟨[3], false, 0, []⟩, ⟨[4], false, 0, []⟩]).1 =
      .error (.custom .InvalidLandAssetAccKey) ∧
    (process_mint_next (fun _ _ => [9, 9]) [0]
        [⟨[1], true, 0, []⟩, ⟨[9, 9], false, 0, List.replicate 33 0⟩,
         ⟨[2], false, 0, 1 :: List.replicate 24 0⟩,
         ⟨[3], false, 0, []⟩, ⟨[4], false, 0, []⟩]).1 =
      .error (.custom .LandAssetAccUninitialised) ∧
    (process_mint_next (fun _ _ => [9, 9]) [0]
        [⟨[1], true, 0, []⟩, ⟨[9, 9], false, 0, List.replicate 33 0⟩,
         ⟨[2], false, 0, 1 :: List.replicate 24 0⟩,
         ⟨[3], false, 0, []⟩, ⟨[4], false, 0, []⟩]).2 =
      [⟨[1], true, 0, []⟩, ⟨[9, 9], false, 0, List.replicate 33 0⟩,
       ⟨[2], false, 0, 1 :: List.replicate 24 0⟩,
       ⟨[3], false, 0, []⟩, ⟨[4], false, 0, []⟩] :=
  ⟨(C5_check_order (fun _ _ => [9, 9]) [0] ⟨[1], false, 0, []⟩
      ⟨[7], false, 0, []⟩ ⟨[2], false, 0, 1 :: List.replicate 24 0⟩
      ⟨[3], false, 0, []⟩ ⟨[4], false, 0, []⟩ []).1 rfl,
   (C5_check_order (fun _ _ => [9, 9]) [0] ⟨[1], true, 0, []⟩
      ⟨[7], false, 0, []⟩ ⟨[2], false, 0, List.replicate 25 0⟩
      ⟨[3], false, 0, []⟩ ⟨[4], false, 0, []⟩ []).2.1
      ⟨.Uninitialised, 0, 0, 0⟩ rfl rfl rfl,
   (C5_check_order (fun _ _ => [9, 9]) [0] ⟨[1], true, 0, []⟩
      ⟨[7], false, 0, []⟩ ⟨[2], false, 0, 1 :: List.replicate 24 0⟩
      ⟨[3], false, 0, []⟩ ⟨[4], false, 0, []⟩ []).2.2.1
      ⟨.V1, 0, 0, 0⟩ rfl rfl (by decide) (by decide),
   (C5_check_order (fun _ _ => [9, 9]) [0] ⟨[1], true, 0, []⟩
      ⟨[9, 9], false, 0, List.replicate 33 0⟩
      ⟨[2], false, 0, 1 :: List.replicate 24 0⟩
      ⟨[3], false, 0, []⟩ ⟨[4], false, 0, []⟩ []).2.2.2.1
      ⟨.V1, 0, 0, 0⟩ ⟨.Uninitialised, List.replicate 32 0⟩
      rfl rfl (by decide) rfl rfl rfl,
   (C5_check_order (fun _ _ => [9, 9]) [0] ⟨[1], true, 0, []⟩
      ⟨[9, 9], false, 0, List.replicate 33 0⟩
      ⟨[2], false, 0, 1 :: List.replicate 24 0⟩
      ⟨[3], false, 0, []⟩ ⟨[4], false, 0, []⟩ []).2.2.2.2⟩

/-- An account holding the freshly serialized initial plane record
decodes back to exactly that record. -/
theorem from_account_info_init_state (k : List Nat) (b : Bool) (l : Nat) :
    LandPlane.from_account_info ⟨k, b, l, serializeLandPlane ⟨.V1, 0, 0, 0⟩⟩ =
      .ok ⟨.V1, 0, 0, 0⟩ :=
  rfl

/-- C6: on a slot that decodes as `Uninitialised` (in particular its byte
length is exactly the 25-byte plane size), `InitialisePlane` succeeds
when the balance meets the rent-exemption threshold for that size —
writing the serialized state version = V1, next_x = 0, next_z = 0,
depth = 0 into the slot — and fails with `NotRentExempt`, writing
nothing, when the balance is below the threshold. -/
theorem C6_initialise_plane (rent : Rent) (plane rentAcc : AccountInfo)
    (tail : List AccountInfo) (st : LandPlane)
    (hdec : LandPlane.from_account_info plane = .ok st)
    (hv : st.version = .Uninitialised) :
    (rent.is_exempt plane.lamports LAND_PLANE_ACC_DATA_LEN = true →
      process_initialise_land_plane rent (plane :: rentAcc :: tail) =
        (.ok (), ⟨plane.key, plane.is_signer, plane.lamports,
          serializeLandPlane ⟨.V1, 0, 0, 0⟩⟩ :: rentAcc :: tail)) ∧
    (rent.is_exempt plane.lamports LAND_PLANE_ACC_DATA_LEN = false →
      process_initialise_land_plane rent (plane :: rentAcc :: tail) =
        (.error (.custom .NotRentExempt), plane :: rentAcc :: tail)) := by
  constructor <;> intro hex <;>
    · simp only [process_initialise_land_plane]
      rw [hdec]
      simp [hv, hex]

/-- C6 witness: with threshold 5 for the 25-byte record, a balance of 5
initialises the slot and a balance of 4 is rejected with
`NotRentExempt`. -/
theorem C6_witness :
    process_initialise_land_plane ⟨fun _ => 5⟩
        [⟨[2], false, 5, List.replicate 25 0⟩, ⟨[8], false, 0, []⟩] =
      (.ok (), [⟨[2], false, 5, serializeLandPlane ⟨.V1, 0, 0, 0⟩⟩,
        ⟨[8], false, 0, []⟩]) ∧
    process_initialise_land_plane ⟨fun _ => 5⟩
        [⟨[2], false, 4, List.replicate 25 0⟩, ⟨[8], false, 0, []⟩] =
      (.error (.custom .NotRentExempt),
       [⟨[2], false, 4, List.replicate 25 0⟩, ⟨[8], false, 0, []⟩]) :=
  ⟨(C6_initialise_plane ⟨fun _ => 5⟩ ⟨[2], false, 5, List.replicate 25 0⟩
      ⟨[8], false, 0, []⟩ [] ⟨.Uninitialised, 0, 0, 0⟩ rfl rfl).1 rfl,
   (C6_initialise_plane ⟨fun _ => 5⟩ ⟨[2], false, 4, List.replicate 25 0⟩
      ⟨[8], false, 0, []⟩ [] ⟨.Uninitialised, 0, 0, 0⟩ rfl rfl).2 rfl⟩

/-- C7: whenever `InitialisePlane` succeeds on an account list, a second
`InitialisePlane` call on the resulting account list (under any rent
parameters) fails with `AlreadyInUse` and leaves every account — in
particular the record bytes written by the first call — unchanged. -/
theorem C7_reinitialise_rejected (rent rent2 : Rent)
    (accs accs' : List AccountInfo)
    (h : process_initialise_land_plane rent accs = (.ok (), accs')) :
    process_initialise_land_plane rent2 accs' =
      (.error (.custom .AlreadyInUse), accs') := by
  match accs with
  | [] => simp [process_initialise_land_plane] at h
  | [a] => simp [process_initialise_land_plane] at h
  | p :: r :: tail =>
    simp only [process_initialise_land_plane] at h
    cases hdec : LandPlane.from_account_info p with
    | error e =>
      simp only [hdec] at h
      simp at h
    | ok st =>
      simp only [hdec] at h
      by_cases hv : st.version ≠ .Uninitialised
      · rw [if_pos hv] at h
        simp at h
      · rw [if_neg hv] at h
        by_cases hex : rent.is_exempt p.lamports LAND_PLANE_ACC_DATA_LEN = true
        · simp only [hex, Bool.not_true, Bool.false_eq_true, if_false] at h
          obtain ⟨-, h2⟩ := Prod.mk.injEq .. ▸ h
          subst h2
          simp only [process_initialise_land_plane, from_account_info_init_state]
          simp
        · simp only [Bool.not_eq_true] at hex
          rw [hex] at h
          simp at h

/-- C7 witness: initialising a zeroed 25-byte slot succeeds; the second
call on the written slot fails with `AlreadyInUse` and returns the
accounts untouched. -/
theorem C7_witness :
    process_initialise_land_plane ⟨fun _ => 0⟩
        [⟨[2], false, 3, serializeLandPlane ⟨.V1, 0, 0, 0⟩⟩, ⟨[8], false, 0, []⟩] =
      (.error (.custom .AlreadyInUse),
       [⟨[2], false, 3, serializeLandPlane ⟨.V1, 0, 0, 0⟩⟩, ⟨[8], false, 0, []⟩]) :=
  C7_reinitialise_rejected ⟨fun _ => 0⟩ ⟨fun _ => 0⟩
    [⟨[2], false, 3, List.replicate 25 0⟩, ⟨[8], false, 0, []⟩]
    [⟨[2], false, 3, serializeLandPlane ⟨.V1, 0, 0, 0⟩⟩, ⟨[8], false, 0, []⟩]
    rfl

/-- C9: when `MintNext` passes every check and returns success, no stored
record is modified: the account list after the call — plane record, plot
record and all — is byte-for-byte the input list. -/
theorem C9_mint_next_frame
    (fpa : List (List Nat) → List Nat → List Nat) (pid : List Nat)
    (accounts : List AccountInfo)
    (_h : (process_mint_next fpa pid accounts).1 = .ok ()) :
    (process_mint_next fpa pid accounts).2 = accounts :=
  mintNext_accounts_unchanged fpa pid accounts

/-- C9 witness: a fully valid concrete request (signer set, V1 plane,
derived key match, V1 plot) succeeds and leaves all accounts unchanged. -/
theorem C9_witness :
    (process_mint_next (fun _ _ => [9, 9]) [0]
        [⟨[1], true, 0, []⟩, ⟨[9, 9], false, 0, 1 :: List.replicate 32 0⟩,
         ⟨[2], false, 0, 1 :: List.replicate 24 0⟩, ⟨[3], false, 0, []⟩,
         ⟨[4], false, 0, []⟩]).2 =
      [⟨[1], true, 0, []⟩, ⟨[9, 9], false, 0, 1 :: List.replicate 32 0⟩,
       ⟨[2], false, 0, 1 :: List.replicate 24 0⟩, ⟨[3], false, 0, []⟩,
       ⟨[4], false, 0, []⟩] :=
  C9_mint_next_frame (fun _ _ => [9, 9]) [0]
    [⟨[1], true, 0, []⟩, ⟨[9, 9], false, 0, 1 :: List.replicate 32 0⟩,
     ⟨[2], false, 0, 1 :: List.replicate 24 0⟩, ⟨[3], false, 0, []⟩,
     ⟨[4], false, 0, []⟩]
    rfl
